import Mathlib

/-!
Shallow embedding of the BlueNRG-LP HAL RNG driver
(`src/bluenrg_family/bluenrglp/drivers/src/rf_driver_hal_rng_v168.c`) and of the
UART-extension FIFO-threshold constants
(`src/bluenrg_family/bluenrglp/drivers/include/rf_driver_hal_uart_ex.h`).

Hardware is modelled by oracles: the data-ready flag and the tick counter are
functions of the poll-iteration index, the divider read-back is a function of
the read index.  The unbounded C loops are modelled with explicit fuel; a run
that exhausts its fuel is `none` (divergence), so termination statements are
phrased as the existence (or non-existence) of a sufficient fuel.
-/

/-- 2^32, the modulus of the C `uint32_t` arithmetic used by the driver. -/
def UINT32_MOD : Nat := 4294967296

/-- Source constant `RNG_TIMEOUT_VALUE` (rf_driver_hal_rng_v168.c line 66): `2U`. -/
def RNG_TIMEOUT_VALUE : Nat := 2

/-- Modelled from the spec: `HAL_RNG_ERROR_NONE`, the cleared error code (the
defining header is not in the sources; the spec says the error code is a
bit-field cleared to none). -/
def HAL_RNG_ERROR_NONE : Nat := 0

/-- Modelled from the spec: `HAL_RNG_ERROR_TIMEOUT`, the TIMEOUT bit of the
error-code bit-field (the defining header is not in the sources; the spec only
requires a fixed nonzero bit that is ORed into the bit-field). -/
def HAL_RNG_ERROR_TIMEOUT : Nat := 2

/-- Modelled from the spec: the HAL status values returned by the driver
(`Ok`/`Error`, plus the busy status returned by the lock primitive when the
lock is already held, and the unused timeout status). -/
inductive HAL_StatusTypeDef where
  | HAL_OK
  | HAL_ERROR
  | HAL_BUSY
  | HAL_TIMEOUT
deriving Repr, DecidableEq

export HAL_StatusTypeDef (HAL_OK HAL_ERROR HAL_BUSY HAL_TIMEOUT)

/-- Modelled from the spec: the handle state enum (RESET/BUSY/READY). -/
inductive HAL_RNG_StateTypeDef where
  | HAL_RNG_STATE_RESET
  | HAL_RNG_STATE_BUSY
  | HAL_RNG_STATE_READY
deriving Repr, DecidableEq

export HAL_RNG_StateTypeDef (HAL_RNG_STATE_RESET HAL_RNG_STATE_BUSY HAL_RNG_STATE_READY)

/-- The RNG handle (`RNG_HandleTypeDef`): Init configuration, re-entrancy lock
(`true` = locked), state, error-code bit-field and the cached last random
value.  The memory-mapped register block (`Instance`) is modelled separately
by the hardware oracle `RNG_HW`. -/
structure RNG_HandleTypeDef where
  SamplingClockDivider : Nat
  Lock : Bool
  State : HAL_RNG_StateTypeDef
  ErrorCode : Nat
  RandomNumber : Nat
deriving Repr, DecidableEq

/-- Hardware oracle for one `HAL_RNG_GenerateRandomNumber` call: `drdy i` is
the DRDY flag read at poll iteration `i`, `tick0` is the `HAL_GetTick()` value
sampled before the loop, `tickAt i` is the `HAL_GetTick()` value read at the
timeout check of iteration `i`, and `val` is the content of the `VAL` data
register at the final read. -/
structure RNG_HW where
  drdy : Nat → Bool
  tick0 : Nat
  tickAt : Nat → Nat
  val : Nat

/-- C expression `HAL_GetTick() - tickstart` on `uint32_t` values:
wrap-around subtraction modulo 2^32. -/
def elapsedSince (tickstart t : Nat) : Nat :=
  ((t % UINT32_MOD) + UINT32_MOD - (tickstart % UINT32_MOD)) % UINT32_MOD

/-- Sanity of the tick oracle: the later tick samples sit within one 2^32
wrap of the starting sample, so modular subtraction is actual tick advance. -/
def tickSane (hw : RNG_HW) : Prop :=
  ∀ i, hw.tick0 ≤ hw.tickAt i ∧ hw.tickAt i < hw.tick0 + UINT32_MOD

/-- How the DRDY poll loop of `HAL_RNG_GenerateRandomNumber` exits:
data became ready at iteration `i`, the timeout check fired at iteration `i`,
or the fuel ran out (the C loop would still be spinning). -/
inductive PollExit where
  | ready : Nat → PollExit
  | timeout : Nat → PollExit
  | spin : PollExit
deriving Repr, DecidableEq

/-- The polling loop of `HAL_RNG_GenerateRandomNumber` (lines 255-265):
`while (DRDY == RESET) { if (HAL_GetTick() - tickstart > RNG_TIMEOUT_VALUE) ... }`.
`i` is the current iteration index, `fuel` bounds the number of iterations
still modelled. -/
def pollDRDY (hw : RNG_HW) : Nat → Nat → PollExit
  | 0, _ => PollExit.spin
  | fuel + 1, i =>
    if hw.drdy i = true then PollExit.ready i
    else if RNG_TIMEOUT_VALUE < elapsedSince hw.tick0 (hw.tickAt i) then PollExit.timeout i
    else pollDRDY hw fuel (i + 1)

/-- The sampling-clock-divider resynchronization loop of `HAL_RNG_Init`
(lines 127-131): `while (read != want) { write want }`.  `divRead j` is the
value returned by the `j`-th read-back; the loop exits at the first read that
equals `want`, returning its index, or `none` when the fuel runs out. -/
def dividerSync (divRead : Nat → Nat) (want : Nat) : Nat → Nat → Option Nat
  | 0, _ => none
  | fuel + 1, i =>
    if divRead i = want then some i else dividerSync divRead want fuel (i + 1)

/-- Result of `HAL_RNG_Init`: status, updated handle, plus ghost observations
of whether the `HAL_RNG_MspInit` collaborator ran and whether the peripheral
was enabled. -/
structure RNG_InitResult where
  status : HAL_StatusTypeDef
  hrng : Option RNG_HandleTypeDef
  mspInitCalled : Bool
  peripheralEnabled : Bool
deriving Repr, DecidableEq

/-- `HAL_RNG_Init` (lines 103-144).  A `none` handle is the C NULL pointer;
the whole result is `none` when the divider loop exhausts its fuel (the C
function would not have returned). -/
def HAL_RNG_Init (fuel : Nat) (divRead : Nat → Nat)
    (hrng : Option RNG_HandleTypeDef) : Option RNG_InitResult :=
  match hrng with
  | none => some ⟨HAL_ERROR, none, false, false⟩
  | some h0 =>
    let firstInit : Bool := decide (h0.State = HAL_RNG_STATE_RESET)
    let h1 := if h0.State = HAL_RNG_STATE_RESET then { h0 with Lock := false } else h0
    let h2 := { h1 with State := HAL_RNG_STATE_BUSY }
    match dividerSync divRead h2.SamplingClockDivider fuel 0 with
    | none => none
    | some _ =>
      some ⟨HAL_OK,
            some { h2 with State := HAL_RNG_STATE_READY, ErrorCode := HAL_RNG_ERROR_NONE },
            firstInit, true⟩

/-- Result of `HAL_RNG_DeInit`: status, updated handle, plus ghost
observations of whether `HAL_RNG_MspDeInit` ran and whether the peripheral was
disabled. -/
structure RNG_DeInitResult where
  status : HAL_StatusTypeDef
  hrng : Option RNG_HandleTypeDef
  mspDeInitCalled : Bool
  peripheralDisabled : Bool
deriving Repr, DecidableEq

/-- `HAL_RNG_DeInit` (lines 152-177). -/
def HAL_RNG_DeInit (hrng : Option RNG_HandleTypeDef) : RNG_DeInitResult :=
  match hrng with
  | none => ⟨HAL_ERROR, none, false, false⟩
  | some h =>
    ⟨HAL_OK,
     some { h with State := HAL_RNG_STATE_RESET, ErrorCode := HAL_RNG_ERROR_NONE,
                   Lock := false },
     true, true⟩

/-- `HAL_RNG_GenerateRandomNumber` (lines 237-282).  `random32bit` is the
current content of the caller's output variable; the returned triple is
(status, updated handle, content of the output variable on return).  The
`__HAL_LOCK` prologue is modelled from the spec: it fails immediately with the
busy status when the lock is already held, otherwise takes the lock.  `none`
models the C call never returning (DRDY never set and the timeout check never
firing within the modelled fuel). -/
def HAL_RNG_GenerateRandomNumber (fuel : Nat) (hw : RNG_HW)
    (hrng : RNG_HandleTypeDef) (random32bit : Nat) :
    Option (HAL_StatusTypeDef × RNG_HandleTypeDef × Nat) :=
  if hrng.Lock then
    some (HAL_BUSY, hrng, random32bit)
  else
    let h1 := { hrng with Lock := true }
    if h1.State = HAL_RNG_STATE_READY then
      let h2 := { h1 with State := HAL_RNG_STATE_BUSY }
      match pollDRDY hw fuel 0 with
      | PollExit.spin => none
      | PollExit.timeout _ =>
        some (HAL_ERROR,
              { h2 with State := HAL_RNG_STATE_READY,
                        ErrorCode := h2.ErrorCode ||| HAL_RNG_ERROR_TIMEOUT,
                        Lock := false },
              random32bit)
      | PollExit.ready _ =>
        let v := hw.val % UINT32_MOD
        some (HAL_OK,
              { h2 with RandomNumber := v, State := HAL_RNG_STATE_READY, Lock := false },
              v)
    else
      some (HAL_ERROR, { h1 with Lock := false }, random32bit)

/-- `HAL_RNG_ReadLastRandomNumber` (lines 290-293): pure field read. -/
def HAL_RNG_ReadLastRandomNumber (hrng : RNG_HandleTypeDef) : Nat :=
  hrng.RandomNumber

/-- `HAL_RNG_GetState` (lines 321-324): pure field read. -/
def HAL_RNG_GetState (hrng : RNG_HandleTypeDef) : HAL_RNG_StateTypeDef :=
  hrng.State

/-- `HAL_RNG_GetError` (lines 331-335): pure field read. -/
def HAL_RNG_GetError (hrng : RNG_HandleTypeDef) : Nat :=
  hrng.ErrorCode

/-!
Helper lemmas about the embedded driver.
-/

/-- Under the wrap sanity bound, the modular tick subtraction is the actual
tick advance. -/
lemma elapsedSince_eq_sub {a t : Nat} (h1 : a ≤ t) (h2 : t < a + UINT32_MOD) :
    elapsedSince a t = t - a := by
  unfold elapsedSince UINT32_MOD at *
  omega

/-- ORing a bit into a bit-field sets that bit. -/
lemma or_and_self (a b : Nat) : (a ||| b) &&& b = b := by
  refine Nat.eq_of_testBit_eq fun i => ?_
  simp only [Nat.testBit_and, Nat.testBit_or]
  cases Nat.testBit b i <;> simp

/-- Inversion for a `ready` exit of the DRDY poll: data was ready at the exit
iteration, and every earlier iteration saw no data and no expired timeout. -/
lemma pollDRDY_ready_inv (hw : RNG_HW) :
    ∀ fuel s k, pollDRDY hw fuel s = PollExit.ready k →
      s ≤ k ∧ hw.drdy k = true ∧
      ∀ j, s ≤ j → j < k →
        hw.drdy j = false ∧
        elapsedSince hw.tick0 (hw.tickAt j) ≤ RNG_TIMEOUT_VALUE := by
  intro fuel
  induction fuel with
  | zero => intro s k h; simp [pollDRDY] at h
  | succ n ih =>
    intro s k h
    by_cases hd : hw.drdy s = true
    · simp [pollDRDY, hd] at h
      subst h
      exact ⟨Nat.le_refl _, hd, fun j h1 h2 => absurd (Nat.lt_of_le_of_lt h1 h2) (Nat.lt_irrefl _)⟩
    · by_cases ht : RNG_TIMEOUT_VALUE < elapsedSince hw.tick0 (hw.tickAt s)
      · simp [pollDRDY, hd, ht] at h
      · simp [pollDRDY, hd, ht] at h
        obtain ⟨h1, h2, h3⟩ := ih (s + 1) k h
        refine ⟨Nat.le_of_succ_le h1, h2, fun j hj1 hj2 => ?_⟩
        rcases Nat.eq_or_lt_of_le hj1 with rfl | hj1
        · exact ⟨Bool.eq_false_iff.mpr hd, Nat.le_of_not_lt ht⟩
        · exact h3 j hj1 hj2

/-- Inversion for a `timeout` exit of the DRDY poll: at the exit iteration the
data was not ready and the timeout had expired, and every earlier iteration
saw no data and no expired timeout. -/
lemma pollDRDY_timeout_inv (hw : RNG_HW) :
    ∀ fuel s k, pollDRDY hw fuel s = PollExit.timeout k →
      s ≤ k ∧ hw.drdy k = false ∧
      RNG_TIMEOUT_VALUE < elapsedSince hw.tick0 (hw.tickAt k) ∧
      ∀ j, s ≤ j → j < k →
        hw.drdy j = false ∧
        elapsedSince hw.tick0 (hw.tickAt j) ≤ RNG_TIMEOUT_VALUE := by
  intro fuel
  induction fuel with
  | zero => intro s k h; simp [pollDRDY] at h
  | succ n ih =>
    intro s k h
    by_cases hd : hw.drdy s = true
    · simp [pollDRDY, hd] at h
    · by_cases ht : RNG_TIMEOUT_VALUE < elapsedSince hw.tick0 (hw.tickAt s)
      · simp [pollDRDY, hd, ht] at h
        subst h
        exact ⟨Nat.le_refl _, Bool.eq_false_iff.mpr hd, ht,
               fun j h1 h2 => absurd (Nat.lt_of_le_of_lt h1 h2) (Nat.lt_irrefl _)⟩
      · simp [pollDRDY, hd, ht] at h
        obtain ⟨h1, h2, h3, h4⟩ := ih (s + 1) k h
        refine ⟨Nat.le_of_succ_le h1, h2, h3, fun j hj1 hj2 => ?_⟩
        rcases Nat.eq_or_lt_of_le hj1 with rfl | hj1
        · exact ⟨Bool.eq_false_iff.mpr hd, Nat.le_of_not_lt ht⟩
        · exact h4 j hj1 hj2

/-- One unfolding step of the DRDY poll loop. -/
lemma pollDRDY_succ (hw : RNG_HW) (fuel i : Nat) :
    pollDRDY hw (fuel + 1) i =
      if hw.drdy i = true then PollExit.ready i
      else if RNG_TIMEOUT_VALUE < elapsedSince hw.tick0 (hw.tickAt i) then PollExit.timeout i
      else pollDRDY hw fuel (i + 1) := rfl

/-- If the data-ready flag is never set and some poll iteration sees an
expired timeout, then with enough fuel the poll exits by timeout. -/
lemma pollDRDY_timeout_exists (hw : RNG_HW)
    (hnever : ∀ i, hw.drdy i = false) :
    ∀ d s, RNG_TIMEOUT_VALUE < elapsedSince hw.tick0 (hw.tickAt (s + d)) →
      ∃ k, pollDRDY hw (d + 1) s = PollExit.timeout k := by
  intro d
  induction d with
  | zero =>
    intro s h
    rw [Nat.add_zero] at h
    exact ⟨s, by rw [pollDRDY_succ, if_neg (by simp [hnever s]), if_pos h]⟩
  | succ n ih =>
    intro s h
    by_cases ht : RNG_TIMEOUT_VALUE < elapsedSince hw.tick0 (hw.tickAt s)
    · exact ⟨s, by rw [pollDRDY_succ, if_neg (by simp [hnever s]), if_pos ht]⟩
    · have hs : s + 1 + n = s + (n + 1) := by omega
      obtain ⟨k, hk⟩ := ih (s + 1) (by rw [hs]; exact h)
      refine ⟨k, ?_⟩
      rw [pollDRDY_succ, if_neg (by simp [hnever s]), if_neg ht]
      exact hk

/-- Complete case analysis of a returning `HAL_RNG_GenerateRandomNumber` call:
lock already held, state not READY, timeout exit, or success. -/
lemma generate_cases (fuel : Nat) (hw : RNG_HW) (h : RNG_HandleTypeDef)
    (out : Nat) (st : HAL_StatusTypeDef) (h' : RNG_HandleTypeDef) (out' : Nat)
    (hrun : HAL_RNG_GenerateRandomNumber fuel hw h out = some (st, h', out')) :
    (h.Lock = true ∧ st = HAL_BUSY ∧ h' = h ∧ out' = out) ∨
    (h.Lock = false ∧ h.State ≠ HAL_RNG_STATE_READY ∧ st = HAL_ERROR ∧
       h' = h ∧ out' = out) ∨
    (h.Lock = false ∧ h.State = HAL_RNG_STATE_READY ∧ st = HAL_ERROR ∧
       out' = out ∧ h' = { h with ErrorCode := h.ErrorCode ||| HAL_RNG_ERROR_TIMEOUT } ∧
       ∃ k, pollDRDY hw fuel 0 = PollExit.timeout k) ∨
    (h.Lock = false ∧ h.State = HAL_RNG_STATE_READY ∧ st = HAL_OK ∧
       out' = hw.val % UINT32_MOD ∧ h' = { h with RandomNumber := hw.val % UINT32_MOD } ∧
       ∃ k, pollDRDY hw fuel 0 = PollExit.ready k) := by
  obtain ⟨d, l, s, e, r⟩ := h
  cases l with
  | true =>
    left
    simp [HAL_RNG_GenerateRandomNumber] at hrun
    obtain ⟨h1, h2, h3⟩ := hrun
    exact ⟨rfl, h1.symm, by simp [h2.symm], h3.symm⟩
  | false =>
    by_cases hs : s = HAL_RNG_STATE_READY
    · subst hs
      rcases hp : pollDRDY hw fuel 0 with k | k | _
      · right; right; right
        simp [HAL_RNG_GenerateRandomNumber, hp] at hrun
        obtain ⟨h1, h2, h3⟩ := hrun
        exact ⟨rfl, rfl, h1.symm, h3.symm, by simp [h2.symm], k, rfl⟩
      · right; right; left
        simp [HAL_RNG_GenerateRandomNumber, hp] at hrun
        obtain ⟨h1, h2, h3⟩ := hrun
        exact ⟨rfl, rfl, h1.symm, h3.symm, by simp [h2.symm], k, rfl⟩
      · simp [HAL_RNG_GenerateRandomNumber, hp] at hrun
    · right; left
      simp [HAL_RNG_GenerateRandomNumber, hs] at hrun
      obtain ⟨h1, h2, h3⟩ := hrun
      exact ⟨rfl, hs, h1.symm, by simp [h2.symm], h3.symm⟩

/-- On a READY, unlocked handle the generate call is determined by how the
DRDY poll exits. -/
lemma generate_ready_unlocked (fuel : Nat) (hw : RNG_HW) (h : RNG_HandleTypeDef)
    (out : Nat) (hready : h.State = HAL_RNG_STATE_READY) (hlock : h.Lock = false) :
    HAL_RNG_GenerateRandomNumber fuel hw h out =
      match pollDRDY hw fuel 0 with
      | PollExit.spin => none
      | PollExit.timeout _ =>
        some (HAL_ERROR, { h with ErrorCode := h.ErrorCode ||| HAL_RNG_ERROR_TIMEOUT }, out)
      | PollExit.ready _ =>
        some (HAL_OK, { h with RandomNumber := hw.val % UINT32_MOD }, hw.val % UINT32_MOD) := by
  obtain ⟨d, l, s, e, r⟩ := h
  cases hready
  cases hlock
  rcases hp : pollDRDY hw fuel 0 with k | k | _ <;>
    simp [HAL_RNG_GenerateRandomNumber, hp]

/-- If some read-back equals the wanted value then, with enough fuel, the
divider resynchronization loop exits. -/
lemma dividerSync_exists (divRead : Nat → Nat) (want : Nat) :
    ∀ d s, divRead (s + d) = want →
      ∃ k, dividerSync divRead want (d + 1) s = some k := by
  intro d
  induction d with
  | zero =>
    intro s h
    rw [Nat.add_zero] at h
    exact ⟨s, by simp [dividerSync, h]⟩
  | succ n ih =>
    intro s h
    by_cases he : divRead s = want
    · exact ⟨s, by simp [dividerSync, he]⟩
    · have hs : s + 1 + n = s + (n + 1) := by omega
      obtain ⟨k, hk⟩ := ih (s + 1) (by rw [hs]; exact h)
      refine ⟨k, ?_⟩
      show (if divRead s = want then some s else dividerSync divRead want (n + 1) (s + 1)) = some k
      rw [if_neg he]
      exact hk

/-- If no read-back ever equals the wanted value, the divider
resynchronization loop never exits, for any fuel. -/
lemma dividerSync_none (divRead : Nat → Nat) (want : Nat)
    (h : ∀ i, divRead i ≠ want) :
    ∀ fuel s, dividerSync divRead want fuel s = none := by
  intro fuel
  induction fuel with
  | zero => intro s; rfl
  | succ n ih =>
    intro s
    show (if divRead s = want then some s else dividerSync divRead want n (s + 1)) = none
    rw [if_neg (h s)]
    exact ih (s + 1)

/-!
UART-extension FIFO-threshold constants
(rf_driver_hal_uart_ex.h lines 78-97).  The `USART_CR3_TXFTCFG_k` /
`USART_CR3_RXFTCFG_k` register bits are modelled from the spec: each is one
bit of a 3-bit threshold-selector field; the field's bit offset inside the
control register is not fixed by the sources in this repository, so the
definitions are parametric in it (`ofs`), and `_0`, `_1`, `_2` are the three
consecutive bits of the field, lowest first.
-/

/-- Modelled from the spec: lowest bit of the 3-bit TXFIFO threshold field. -/
def USART_CR3_TXFTCFG_0 (ofs : Nat) : Nat := 2 ^ ofs

/-- Modelled from the spec: middle bit of the 3-bit TXFIFO threshold field. -/
def USART_CR3_TXFTCFG_1 (ofs : Nat) : Nat := 2 ^ (ofs + 1)

/-- Modelled from the spec: highest bit of the 3-bit TXFIFO threshold field. -/
def USART_CR3_TXFTCFG_2 (ofs : Nat) : Nat := 2 ^ (ofs + 2)

/-- Modelled from the spec: lowest bit of the 3-bit RXFIFO threshold field. -/
def USART_CR3_RXFTCFG_0 (ofs : Nat) : Nat := 2 ^ ofs

/-- Modelled from the spec: middle bit of the 3-bit RXFIFO threshold field. -/
def USART_CR3_RXFTCFG_1 (ofs : Nat) : Nat := 2 ^ (ofs + 1)

/-- Modelled from the spec: highest bit of the 3-bit RXFIFO threshold field. -/
def USART_CR3_RXFTCFG_2 (ofs : Nat) : Nat := 2 ^ (ofs + 2)

/-- `UART_TXFIFO_THRESHOLD_1_8` (line 78). -/
def UART_TXFIFO_THRESHOLD_1_8 (_ : Nat) : Nat := 0

/-- `UART_TXFIFO_THRESHOLD_1_4` (line 79). -/
def UART_TXFIFO_THRESHOLD_1_4 (ofs : Nat) : Nat := USART_CR3_TXFTCFG_0 ofs

/-- `UART_TXFIFO_THRESHOLD_1_2` (line 80). -/
def UART_TXFIFO_THRESHOLD_1_2 (ofs : Nat) : Nat := USART_CR3_TXFTCFG_1 ofs

/-- `UART_TXFIFO_THRESHOLD_3_4` (line 81). -/
def UART_TXFIFO_THRESHOLD_3_4 (ofs : Nat) : Nat :=
  USART_CR3_TXFTCFG_0 ofs ||| USART_CR3_TXFTCFG_1 ofs

/-- `UART_TXFIFO_THRESHOLD_7_8` (line 82). -/
def UART_TXFIFO_THRESHOLD_7_8 (ofs : Nat) : Nat := USART_CR3_TXFTCFG_2 ofs

/-- `UART_TXFIFO_THRESHOLD_8_8` (line 83). -/
def UART_TXFIFO_THRESHOLD_8_8 (ofs : Nat) : Nat :=
  USART_CR3_TXFTCFG_2 ofs ||| USART_CR3_TXFTCFG_0 ofs

/-- `UART_RXFIFO_THRESHOLD_1_8` (line 92). -/
def UART_RXFIFO_THRESHOLD_1_8 (_ : Nat) : Nat := 0

/-- `UART_RXFIFO_THRESHOLD_1_4` (line 93). -/
def UART_RXFIFO_THRESHOLD_1_4 (ofs : Nat) : Nat := USART_CR3_RXFTCFG_0 ofs

/-- `UART_RXFIFO_THRESHOLD_1_2` (line 94). -/
def UART_RXFIFO_THRESHOLD_1_2 (ofs : Nat) : Nat := USART_CR3_RXFTCFG_1 ofs

/-- `UART_RXFIFO_THRESHOLD_3_4` (line 95). -/
def UART_RXFIFO_THRESHOLD_3_4 (ofs : Nat) : Nat :=
  USART_CR3_RXFTCFG_0 ofs ||| USART_CR3_RXFTCFG_1 ofs

/-- `UART_RXFIFO_THRESHOLD_7_8` (line 96). -/
def UART_RXFIFO_THRESHOLD_7_8 (ofs : Nat) : Nat := USART_CR3_RXFTCFG_2 ofs

/-- `UART_RXFIFO_THRESHOLD_8_8` (line 97). -/
def UART_RXFIFO_THRESHOLD_8_8 (ofs : Nat) : Nat :=
  USART_CR3_RXFTCFG_2 ofs ||| USART_CR3_RXFTCFG_0 ofs

/-- Doubling both arguments commutes with bitwise or. -/
lemma two_mul_or (a b : Nat) : (2 * a) ||| (2 * b) = 2 * (a ||| b) := by
  have h := Nat.lor_bit false a false b
  simpa [Nat.bit, Nat.mul_comm] using h

/-- Or of the two low bits of a field is three times the field's unit. -/
lemma pow_or_pow_succ (o : Nat) : 2 ^ o ||| 2 ^ (o + 1) = 3 * 2 ^ o := by
  induction o with
  | zero => decide
  | succ n ih =>
    have key := two_mul_or (2 ^ n) (2 ^ (n + 1))
    have e1 : (2 : Nat) * 2 ^ n = 2 ^ (n + 1) := by ring
    have e2 : (2 : Nat) * 2 ^ (n + 1) = 2 ^ (n + 1 + 1) := by ring
    rw [e1, e2, ih] at key
    rw [key]
    ring

/-- Or of the high and low bits of a 3-bit field is five times its unit. -/
lemma pow_add_two_or_pow (o : Nat) : 2 ^ (o + 2) ||| 2 ^ o = 5 * 2 ^ o := by
  induction o with
  | zero => decide
  | succ n ih =>
    have key := two_mul_or (2 ^ (n + 2)) (2 ^ n)
    have e1 : (2 : Nat) * 2 ^ (n + 2) = 2 ^ (n + 1 + 2) := by ring
    have e2 : (2 : Nat) * 2 ^ n = 2 ^ (n + 1) := by ring
    rw [e1, e2, ih] at key
    rw [key]
    ring

/-!
Claim theorems.
-/

/-- Claim C8: each of the six TX and RX FIFO threshold selector constants
equals the exact register bit pattern specified for its level (in particular
the 3/4 threshold is the bitwise OR of the two lower configuration bits), and
the six constants of each direction are pairwise distinct.  `t` and `r` are
the bit offsets of the TX and RX threshold fields inside the control
register; the statement holds whatever those offsets are. -/
theorem uart_fifo_threshold_constants (t r : Nat) :
    (UART_TXFIFO_THRESHOLD_1_8 t = 0 ∧
     UART_TXFIFO_THRESHOLD_1_4 t = USART_CR3_TXFTCFG_0 t ∧
     UART_TXFIFO_THRESHOLD_1_2 t = USART_CR3_TXFTCFG_1 t ∧
     UART_TXFIFO_THRESHOLD_3_4 t = (USART_CR3_TXFTCFG_0 t ||| USART_CR3_TXFTCFG_1 t) ∧
     UART_TXFIFO_THRESHOLD_7_8 t = USART_CR3_TXFTCFG_2 t ∧
     UART_TXFIFO_THRESHOLD_8_8 t = (USART_CR3_TXFTCFG_2 t ||| USART_CR3_TXFTCFG_0 t) ∧
     UART_RXFIFO_THRESHOLD_1_8 r = 0 ∧
     UART_RXFIFO_THRESHOLD_1_4 r = USART_CR3_RXFTCFG_0 r ∧
     UART_RXFIFO_THRESHOLD_1_2 r = USART_CR3_RXFTCFG_1 r ∧
     UART_RXFIFO_THRESHOLD_3_4 r = (USART_CR3_RXFTCFG_0 r ||| USART_CR3_RXFTCFG_1 r) ∧
     UART_RXFIFO_THRESHOLD_7_8 r = USART_CR3_RXFTCFG_2 r ∧
     UART_RXFIFO_THRESHOLD_8_8 r = (USART_CR3_RXFTCFG_2 r ||| USART_CR3_RXFTCFG_0 r)) ∧
    (UART_TXFIFO_THRESHOLD_1_8 t ≠ UART_TXFIFO_THRESHOLD_1_4 t ∧
     UART_TXFIFO_THRESHOLD_1_8 t ≠ UART_TXFIFO_THRESHOLD_1_2 t ∧
     UART_TXFIFO_THRESHOLD_1_8 t ≠ UART_TXFIFO_THRESHOLD_3_4 t ∧
     UART_TXFIFO_THRESHOLD_1_8 t ≠ UART_TXFIFO_THRESHOLD_7_8 t ∧
     UART_TXFIFO_THRESHOLD_1_8 t ≠ UART_TXFIFO_THRESHOLD_8_8 t ∧
     UART_TXFIFO_THRESHOLD_1_4 t ≠ UART_TXFIFO_THRESHOLD_1_2 t ∧
     UART_TXFIFO_THRESHOLD_1_4 t ≠ UART_TXFIFO_THRESHOLD_3_4 t ∧
     UART_TXFIFO_THRESHOLD_1_4 t ≠ UART_TXFIFO_THRESHOLD_7_8 t ∧
     UART_TXFIFO_THRESHOLD_1_4 t ≠ UART_TXFIFO_THRESHOLD_8_8 t ∧
     UART_TXFIFO_THRESHOLD_1_2 t ≠ UART_TXFIFO_THRESHOLD_3_4 t ∧
     UART_TXFIFO_THRESHOLD_1_2 t ≠ UART_TXFIFO_THRESHOLD_7_8 t ∧
     UART_TXFIFO_THRESHOLD_1_2 t ≠ UART_TXFIFO_THRESHOLD_8_8 t ∧
     UART_TXFIFO_THRESHOLD_3_4 t ≠ UART_TXFIFO_THRESHOLD_7_8 t ∧
     UART_TXFIFO_THRESHOLD_3_4 t ≠ UART_TXFIFO_THRESHOLD_8_8 t ∧
     UART_TXFIFO_THRESHOLD_7_8 t ≠ UART_TXFIFO_THRESHOLD_8_8 t) ∧
    (UART_RXFIFO_THRESHOLD_1_8 r ≠ UART_RXFIFO_THRESHOLD_1_4 r ∧
     UART_RXFIFO_THRESHOLD_1_8 r ≠ UART_RXFIFO_THRESHOLD_1_2 r ∧
     UART_RXFIFO_THRESHOLD_1_8 r ≠ UART_RXFIFO_THRESHOLD_3_4 r ∧
     UART_RXFIFO_THRESHOLD_1_8 r ≠ UART_RXFIFO_THRESHOLD_7_8 r ∧
     UART_RXFIFO_THRESHOLD_1_8 r ≠ UART_RXFIFO_THRESHOLD_8_8 r ∧
     UART_RXFIFO_THRESHOLD_1_4 r ≠ UART_RXFIFO_THRESHOLD_1_2 r ∧
     UART_RXFIFO_THRESHOLD_1_4 r ≠ UART_RXFIFO_THRESHOLD_3_4 r ∧
     UART_RXFIFO_THRESHOLD_1_4 r ≠ UART_RXFIFO_THRESHOLD_7_8 r ∧
     UART_RXFIFO_THRESHOLD_1_4 r ≠ UART_RXFIFO_THRESHOLD_8_8 r ∧
     UART_RXFIFO_THRESHOLD_1_2 r ≠ UART_RXFIFO_THRESHOLD_3_4 r ∧
     UART_RXFIFO_THRESHOLD_1_2 r ≠ UART_RXFIFO_THRESHOLD_7_8 r ∧
     UART_RXFIFO_THRESHOLD_1_2 r ≠ UART_RXFIFO_THRESHOLD_8_8 r ∧
     UART_RXFIFO_THRESHOLD_3_4 r ≠ UART_RXFIFO_THRESHOLD_7_8 r ∧
     UART_RXFIFO_THRESHOLD_3_4 r ≠ UART_RXFIFO_THRESHOLD_8_8 r ∧
     UART_RXFIFO_THRESHOLD_7_8 r ≠ UART_RXFIFO_THRESHOLD_8_8 r) := by
  have hpt : 0 < 2 ^ t := Nat.two_pow_pos t
  have hpr : 0 < 2 ^ r := Nat.two_pow_pos r
  have mt2 : (2 : Nat) ^ (t + 1) = 2 * 2 ^ t := by ring
  have mt4 : (2 : Nat) ^ (t + 2) = 4 * 2 ^ t := by ring
  have mr2 : (2 : Nat) ^ (r + 1) = 2 * 2 ^ r := by ring
  have mr4 : (2 : Nat) ^ (r + 2) = 4 * 2 ^ r := by ring
  refine ⟨⟨rfl, rfl, rfl, rfl, rfl, rfl, rfl, rfl, rfl, rfl, rfl, rfl⟩, ?_, ?_⟩
  · simp only [UART_TXFIFO_THRESHOLD_1_8, UART_TXFIFO_THRESHOLD_1_4,
      UART_TXFIFO_THRESHOLD_1_2, UART_TXFIFO_THRESHOLD_3_4,
      UART_TXFIFO_THRESHOLD_7_8, UART_TXFIFO_THRESHOLD_8_8,
      USART_CR3_TXFTCFG_0, USART_CR3_TXFTCFG_1, USART_CR3_TXFTCFG_2,
      pow_or_pow_succ t, pow_add_two_or_pow t]
    simp only [mt2, mt4]
    omega
  · simp only [UART_RXFIFO_THRESHOLD_1_8, UART_RXFIFO_THRESHOLD_1_4,
      UART_RXFIFO_THRESHOLD_1_2, UART_RXFIFO_THRESHOLD_3_4,
      UART_RXFIFO_THRESHOLD_7_8, UART_RXFIFO_THRESHOLD_8_8,
      USART_CR3_RXFTCFG_0, USART_CR3_RXFTCFG_1, USART_CR3_RXFTCFG_2,
      pow_or_pow_succ r, pow_add_two_or_pow r]
    simp only [mr2, mr4]
    omega

/-- Claim C6: `Init` fails with the null-handle error exactly on an absent
handle; on a non-null handle it runs the MSP-init hook and frees the lock
exactly when the state is RESET at the call, and every returning non-null
call ends with the peripheral enabled, state READY, error code cleared and
status Ok. -/
theorem hal_rng_init_spec (fuel : Nat) (divRead : Nat → Nat) :
    HAL_RNG_Init fuel divRead none =
      some ⟨HAL_ERROR, none, false, false⟩ ∧
    (∀ h r, HAL_RNG_Init fuel divRead (some h) = some r →
       r.status = HAL_OK ∧ r.status ≠ HAL_ERROR ∧
       r.peripheralEnabled = true ∧
       (r.mspInitCalled = true ↔ h.State = HAL_RNG_STATE_RESET) ∧
       r.hrng = some { h with State := HAL_RNG_STATE_READY,
                              ErrorCode := HAL_RNG_ERROR_NONE,
                              Lock := if h.State = HAL_RNG_STATE_RESET then false
                                      else h.Lock }) := by
  refine ⟨rfl, fun h r hr => ?_⟩
  by_cases hs : h.State = HAL_RNG_STATE_RESET <;>
    [skip; skip] <;>
    rcases hd : dividerSync divRead h.SamplingClockDivider fuel 0 with _ | k <;>
    simp [HAL_RNG_Init, hs, hd] at hr <;>
    subst hr <;>
    simp [hs]

/-- Handle fixture: freshly zero-state handle (state RESET). -/
def rngHandleReset0 : RNG_HandleTypeDef :=
  ⟨0, false, HAL_RNG_STATE_RESET, 5, 7⟩

/-- Handle fixture: READY, unlocked, error code clear. -/
def rngHandleReady0 : RNG_HandleTypeDef :=
  ⟨0, false, HAL_RNG_STATE_READY, 0, 7⟩

/-- Divider read-back oracle that always reads 0. -/
def divReadZero : Nat → Nat := fun _ => 0

/-- Divider read-back oracle that always reads 1. -/
def divReadOne : Nat → Nat := fun _ => 1

/-- Result fixture for `hal_rng_init_spec_witness`. -/
def rngInitResult0 : RNG_InitResult :=
  ⟨HAL_OK, some ⟨0, false, HAL_RNG_STATE_READY, 0, 7⟩, true, true⟩

/-- Witness for C6 at a concrete RESET handle and cooperating divider. -/
theorem hal_rng_init_spec_witness :
    rngInitResult0.status = HAL_OK ∧ rngInitResult0.status ≠ HAL_ERROR ∧
    rngInitResult0.peripheralEnabled = true ∧
    (rngInitResult0.mspInitCalled = true ↔
       rngHandleReset0.State = HAL_RNG_STATE_RESET) ∧
    rngInitResult0.hrng =
      some { rngHandleReset0 with
              State := HAL_RNG_STATE_READY,
              ErrorCode := HAL_RNG_ERROR_NONE,
              Lock := if rngHandleReset0.State = HAL_RNG_STATE_RESET then false
                      else rngHandleReset0.Lock } :=
  (hal_rng_init_spec 1 divReadZero).2 rngHandleReset0 rngInitResult0 (by decide)

/-- Claim C3: `Init` immediately followed by `DeInit` leaves the handle with
state RESET, error code cleared and lock released; `DeInit` alone resets any
non-null handle the same way and returns Ok, and fails with the null-handle
error on an absent handle. -/
theorem hal_rng_init_deinit (fuel : Nat) (divRead : Nat → Nat) :
    (∀ h r h1, HAL_RNG_Init fuel divRead (some h) = some r →
       r.hrng = some h1 →
       ∃ h2, HAL_RNG_DeInit (some h1) = ⟨HAL_OK, some h2, true, true⟩ ∧
         h2.State = HAL_RNG_STATE_RESET ∧ h2.ErrorCode = HAL_RNG_ERROR_NONE ∧
         h2.Lock = false) ∧
    (∀ h, HAL_RNG_DeInit (some h) =
       ⟨HAL_OK, some { h with State := HAL_RNG_STATE_RESET,
                              ErrorCode := HAL_RNG_ERROR_NONE,
                              Lock := false }, true, true⟩) ∧
    (HAL_RNG_DeInit none).status = HAL_ERROR ∧
    (HAL_RNG_DeInit none).hrng = none := by
  refine ⟨fun h r h1 _ _ => ?_, fun h => rfl, rfl, rfl⟩
  exact ⟨{ h1 with State := HAL_RNG_STATE_RESET, ErrorCode := HAL_RNG_ERROR_NONE,
                   Lock := false }, rfl, rfl, rfl, rfl⟩

/-- Witness for C3: init-then-deinit on a concrete RESET handle. -/
theorem hal_rng_init_deinit_witness :
    ∃ h2, HAL_RNG_DeInit (some rngHandleReady0) = ⟨HAL_OK, some h2, true, true⟩ ∧
      h2.State = HAL_RNG_STATE_RESET ∧ h2.ErrorCode = HAL_RNG_ERROR_NONE ∧
      h2.Lock = false :=
  (hal_rng_init_deinit 1 divReadZero).1 rngHandleReset0 rngInitResult0
    rngHandleReady0 (by decide) (by decide)

/-- Claim C5: the sampling-clock-divider loop of `Init` terminates exactly
when the hardware read-back eventually equals the requested divider: if some
read-back matches, `Init` returns for a sufficient fuel; if no read-back ever
matches, `Init` returns for no fuel at all. -/
theorem hal_rng_init_divider_loop (divRead : Nat → Nat) (h : RNG_HandleTypeDef) :
    ((∃ i, divRead i = h.SamplingClockDivider) →
       ∃ fuel r, HAL_RNG_Init fuel divRead (some h) = some r) ∧
    ((∀ i, divRead i ≠ h.SamplingClockDivider) →
       ∀ fuel, HAL_RNG_Init fuel divRead (some h) = none) := by
  constructor
  · rintro ⟨i, hi⟩
    obtain ⟨k, hk⟩ :=
      dividerSync_exists divRead h.SamplingClockDivider i 0 (by simpa using hi)
    have hsome : (HAL_RNG_Init (i + 1) divRead (some h)).isSome := by
      by_cases hs : h.State = HAL_RNG_STATE_RESET <;> simp [HAL_RNG_Init, hs, hk]
    obtain ⟨r, hr⟩ := Option.isSome_iff_exists.mp hsome
    exact ⟨i + 1, r, hr⟩
  · intro hne fuel
    have hn := dividerSync_none divRead h.SamplingClockDivider hne fuel 0
    by_cases hs : h.State = HAL_RNG_STATE_RESET <;> simp [HAL_RNG_Init, hs, hn]

/-- Witness for C5: a read-back that matches at once makes `Init` return; a
read-back that never matches makes `Init` spin for every fuel. -/
theorem hal_rng_init_divider_loop_witness :
    (∃ fuel r, HAL_RNG_Init fuel divReadZero (some rngHandleReset0) = some r) ∧
    (∀ fuel, HAL_RNG_Init fuel divReadOne (some rngHandleReset0) = none) :=
  ⟨(hal_rng_init_divider_loop divReadZero rngHandleReset0).1 ⟨0, rfl⟩,
   (hal_rng_init_divider_loop divReadOne rngHandleReset0).2
     (fun _ => by simp [divReadOne, rngHandleReset0])⟩

/-- Hardware fixture: data ready at the first poll, value register holds 42. -/
def hwDataReady : RNG_HW := ⟨fun _ => true, 0, fun _ => 0, 42⟩

/-- Hardware fixture: data never ready, tick counter advancing up to 3. -/
def hwNeverReadyTicking : RNG_HW := ⟨fun _ => false, 0, fun i => min i 3, 0⟩

/-- Handle fixture: READY but with the re-entrancy lock already held. -/
def rngHandleReadyLocked : RNG_HandleTypeDef :=
  ⟨0, true, HAL_RNG_STATE_READY, 0, 7⟩

/-- Handle fixture: RESET with the re-entrancy lock already held. -/
def rngHandleResetLocked : RNG_HandleTypeDef :=
  ⟨0, true, HAL_RNG_STATE_RESET, 0, 7⟩

/-- Handle fixture: `rngHandleReady0` after a successful generate of 42. -/
def rngHandleReadyAfter : RNG_HandleTypeDef :=
  ⟨0, false, HAL_RNG_STATE_READY, 0, 42⟩

/-- Claim C1 (amended: the lock must not already be held): a returning
generate call on a READY, unlocked handle either returns Ok, stores a 32-bit
value and leaves state READY, or returns the error status with the TIMEOUT
bit ORed into the error code and leaves state READY; it never returns with
state still BUSY. -/
theorem hal_rng_generate_ready_outcomes (fuel : Nat) (hw : RNG_HW)
    (h : RNG_HandleTypeDef) (out : Nat) (st : HAL_StatusTypeDef)
    (h' : RNG_HandleTypeDef) (out' : Nat)
    (hready : h.State = HAL_RNG_STATE_READY) (hlock : h.Lock = false)
    (hrun : HAL_RNG_GenerateRandomNumber fuel hw h out = some (st, h', out')) :
    ((st = HAL_OK ∧ out' = h'.RandomNumber ∧ h'.RandomNumber < UINT32_MOD ∧
        h'.State = HAL_RNG_STATE_READY) ∨
     (st = HAL_ERROR ∧ h'.ErrorCode = h.ErrorCode ||| HAL_RNG_ERROR_TIMEOUT ∧
        h'.ErrorCode &&& HAL_RNG_ERROR_TIMEOUT = HAL_RNG_ERROR_TIMEOUT ∧
        h'.State = HAL_RNG_STATE_READY)) ∧
    h'.State ≠ HAL_RNG_STATE_BUSY := by
  rcases generate_cases fuel hw h out st h' out' hrun with
    ⟨hl, _⟩ | ⟨_, hs, _⟩ | ⟨_, _, hst, hout, hh, _⟩ | ⟨_, _, hst, hout, hh, _⟩
  · rw [hlock] at hl; exact absurd hl (by simp)
  · exact absurd hready hs
  · subst hh
    refine ⟨Or.inr ⟨hst, rfl, or_and_self _ _, by simp [hready]⟩, by simp [hready]⟩
  · subst hh
    refine ⟨Or.inl ⟨hst, by simp [hout], ?_, by simp [hready]⟩, by simp [hready]⟩
    show hw.val % UINT32_MOD < UINT32_MOD
    exact Nat.mod_lt _ (by norm_num [UINT32_MOD])

/-- Witness for C1 at a concrete READY, unlocked handle with data ready at
the first poll. -/
theorem hal_rng_generate_ready_outcomes_witness :
    ((HAL_OK = HAL_OK ∧ (42 : Nat) = rngHandleReadyAfter.RandomNumber ∧
        rngHandleReadyAfter.RandomNumber < UINT32_MOD ∧
        rngHandleReadyAfter.State = HAL_RNG_STATE_READY) ∨
     (HAL_OK = HAL_ERROR ∧
        rngHandleReadyAfter.ErrorCode =
          rngHandleReady0.ErrorCode ||| HAL_RNG_ERROR_TIMEOUT ∧
        rngHandleReadyAfter.ErrorCode &&& HAL_RNG_ERROR_TIMEOUT =
          HAL_RNG_ERROR_TIMEOUT ∧
        rngHandleReadyAfter.State = HAL_RNG_STATE_READY)) ∧
    rngHandleReadyAfter.State ≠ HAL_RNG_STATE_BUSY :=
  hal_rng_generate_ready_outcomes 1 hwDataReady rngHandleReady0 0 HAL_OK
    rngHandleReadyAfter 42 rfl rfl (by decide)

/-- Counterexample to C1 as stated: on a handle whose state is READY but
whose lock is already held, the generate call returns the busy status —
neither the Ok outcome nor the error-with-TIMEOUT-bit outcome — leaving the
handle unchanged. -/
theorem hal_rng_generate_ready_outcomes_counterexample :
    rngHandleReadyLocked.State = HAL_RNG_STATE_READY ∧
    HAL_RNG_GenerateRandomNumber 1 hwDataReady rngHandleReadyLocked 0 =
      some (HAL_BUSY, rngHandleReadyLocked, 0) ∧
    HAL_BUSY ≠ HAL_OK ∧ HAL_BUSY ≠ HAL_ERROR ∧
    rngHandleReadyLocked.ErrorCode &&& HAL_RNG_ERROR_TIMEOUT ≠
      HAL_RNG_ERROR_TIMEOUT := by
  decide

/-- Claim C2 (amended: the lock must not already be held): on a READY,
unlocked handle, with tick samples within one wrap of the starting sample,
the timeout bound is the fixed constant 2; a returning generate call fails
with the error status, state READY and the TIMEOUT bit set exactly when the
data-ready flag was not observed set while the tick counter was within 2
ticks of the starting sample; and when the hardware never reports ready and
the tick counter reaches 3 ticks past the start, some fuel makes the call
return exactly that timeout outcome. -/
theorem hal_rng_generate_timeout_iff (hw : RNG_HW) (h : RNG_HandleTypeDef)
    (out : Nat) (hsane : tickSane hw)
    (hready : h.State = HAL_RNG_STATE_READY) (hlock : h.Lock = false) :
    RNG_TIMEOUT_VALUE = 2 ∧
    (∀ fuel st h' out',
       HAL_RNG_GenerateRandomNumber fuel hw h out = some (st, h', out') →
       ((st = HAL_ERROR ∧ h'.State = HAL_RNG_STATE_READY ∧
           h'.ErrorCode &&& HAL_RNG_ERROR_TIMEOUT = HAL_RNG_ERROR_TIMEOUT) ↔
        ∃ i, (∀ j, j ≤ i → hw.drdy j = false) ∧
             2 < hw.tickAt i - hw.tick0 ∧
             ∀ j, j < i → hw.tickAt j - hw.tick0 ≤ 2)) ∧
    ((∀ i, hw.drdy i = false) →
       ∀ i0, hw.tick0 + 3 ≤ hw.tickAt i0 →
       ∃ fuel h',
         HAL_RNG_GenerateRandomNumber fuel hw h out = some (HAL_ERROR, h', out) ∧
         h'.State = HAL_RNG_STATE_READY ∧
         h'.ErrorCode &&& HAL_RNG_ERROR_TIMEOUT = HAL_RNG_ERROR_TIMEOUT) := by
  have elap : ∀ j, elapsedSince hw.tick0 (hw.tickAt j) = hw.tickAt j - hw.tick0 :=
    fun j => elapsedSince_eq_sub (hsane j).1 (hsane j).2
  refine ⟨rfl, ?_, ?_⟩
  · intro fuel st h' out' hrun
    rw [generate_ready_unlocked fuel hw h out hready hlock] at hrun
    rcases hp : pollDRDY hw fuel 0 with k | k | _ <;> rw [hp] at hrun
    · -- exited with data ready: the call returned Ok
      simp only [Option.some.injEq, Prod.mk.injEq] at hrun
      obtain ⟨hst, -, -⟩ := hrun
      constructor
      · rintro ⟨hE, -, -⟩
        rw [← hst] at hE
        simp at hE
      · rintro ⟨i, hdi, hti, -⟩
        obtain ⟨-, hdk, hprev⟩ := pollDRDY_ready_inv hw fuel 0 k hp
        by_cases hik : k ≤ i
        · rw [hdi k hik] at hdk
          simp at hdk
        · have hle := (hprev i (Nat.zero_le _) (by omega)).2
          rw [elap i] at hle
          simp only [RNG_TIMEOUT_VALUE] at hle
          omega
    · -- exited by timeout
      simp only [Option.some.injEq, Prod.mk.injEq] at hrun
      obtain ⟨hst, hh, -⟩ := hrun
      obtain ⟨-, hdk, htk, hprev⟩ := pollDRDY_timeout_inv hw fuel 0 k hp
      constructor
      · intro _
        refine ⟨k, ?_, ?_, ?_⟩
        · intro j hj
          rcases Nat.lt_or_ge j k with hjk | hjk
          · exact (hprev j (Nat.zero_le _) hjk).1
          · have : j = k := by omega
            subst this
            exact hdk
        · rw [elap k] at htk
          simpa only [RNG_TIMEOUT_VALUE] using htk
        · intro j hj
          have hle := (hprev j (Nat.zero_le _) hj).2
          rw [elap j] at hle
          simpa only [RNG_TIMEOUT_VALUE] using hle
      · intro _
        rw [← hh, ← hst]
        exact ⟨rfl, by simp [hready], or_and_self _ _⟩
    · simp at hrun
  · intro hnever i0 hi0
    have he : RNG_TIMEOUT_VALUE < elapsedSince hw.tick0 (hw.tickAt (0 + i0)) := by
      rw [Nat.zero_add, elap i0]
      simp only [RNG_TIMEOUT_VALUE]
      omega
    obtain ⟨k, hk⟩ := pollDRDY_timeout_exists hw hnever i0 0 he
    refine ⟨i0 + 1,
            { h with ErrorCode := h.ErrorCode ||| HAL_RNG_ERROR_TIMEOUT },
            ?_, by simp [hready], or_and_self _ _⟩
    rw [generate_ready_unlocked (i0 + 1) hw h out hready hlock, hk]

/-- Witness for C2: with hardware that never reports ready and a tick counter
that reaches 3 ticks past the start, a concrete READY, unlocked handle gets
the timeout outcome, and the timeout bound is the constant 2. -/
theorem hal_rng_generate_timeout_iff_witness :
    RNG_TIMEOUT_VALUE = 2 ∧
    ∃ fuel h',
      HAL_RNG_GenerateRandomNumber fuel hwNeverReadyTicking rngHandleReady0 0 =
        some (HAL_ERROR, h', 0) ∧
      h'.State = HAL_RNG_STATE_READY ∧
      h'.ErrorCode &&& HAL_RNG_ERROR_TIMEOUT = HAL_RNG_ERROR_TIMEOUT :=
  have main := hal_rng_generate_timeout_iff hwNeverReadyTicking rngHandleReady0 0
    (by intro i; simp only [hwNeverReadyTicking, tickSane, UINT32_MOD]; omega)
    rfl rfl
  ⟨main.1, main.2.2 (fun _ => rfl) 3 (by decide)⟩

/-- Counterexample to C2 as stated: on a READY handle whose lock is already
held, with hardware that never reports ready and a tick counter that advances
past 2 ticks, the call does not fail with the timeout outcome — it returns
the busy status at once, with no TIMEOUT bit recorded. -/
theorem hal_rng_generate_timeout_iff_counterexample :
    rngHandleReadyLocked.State = HAL_RNG_STATE_READY ∧
    (∀ i, hwNeverReadyTicking.drdy i = false) ∧
    2 < hwNeverReadyTicking.tickAt 3 - hwNeverReadyTicking.tick0 ∧
    HAL_RNG_GenerateRandomNumber 10 hwNeverReadyTicking rngHandleReadyLocked 0 =
      some (HAL_BUSY, rngHandleReadyLocked, 0) ∧
    HAL_BUSY ≠ HAL_ERROR ∧
    rngHandleReadyLocked.ErrorCode &&& HAL_RNG_ERROR_TIMEOUT ≠
      HAL_RNG_ERROR_TIMEOUT :=
  ⟨rfl, fun _ => rfl, by decide, by decide, by decide, by decide⟩

/-- Claim C4 (amended: the lock must not already be held): a generate call on
an unlocked handle in RESET or BUSY state returns the error status and leaves
the whole handle — in particular `RandomNumber` — unchanged. -/
theorem hal_rng_generate_not_ready_frame (fuel : Nat) (hw : RNG_HW)
    (h : RNG_HandleTypeDef) (out : Nat) (hlock : h.Lock = false)
    (hs : h.State = HAL_RNG_STATE_RESET ∨ h.State = HAL_RNG_STATE_BUSY) :
    HAL_RNG_GenerateRandomNumber fuel hw h out = some (HAL_ERROR, h, out) ∧
    ∀ st h' out',
      HAL_RNG_GenerateRandomNumber fuel hw h out = some (st, h', out') →
      h'.RandomNumber = h.RandomNumber := by
  obtain ⟨d, l, s, e, r⟩ := h
  cases l with
  | true => exact absurd hlock (by simp)
  | false =>
    cases s with
    | HAL_RNG_STATE_READY => rcases hs with hs | hs <;> simp at hs
    | HAL_RNG_STATE_RESET =>
      refine ⟨rfl, fun st h' out' hrun => ?_⟩
      have heq : HAL_RNG_GenerateRandomNumber fuel hw
          ⟨d, false, HAL_RNG_STATE_RESET, e, r⟩ out =
          some (HAL_ERROR, ⟨d, false, HAL_RNG_STATE_RESET, e, r⟩, out) := rfl
      rw [heq] at hrun
      simp only [Option.some.injEq, Prod.mk.injEq] at hrun
      rw [← hrun.2.1]
    | HAL_RNG_STATE_BUSY =>
      refine ⟨rfl, fun st h' out' hrun => ?_⟩
      have heq : HAL_RNG_GenerateRandomNumber fuel hw
          ⟨d, false, HAL_RNG_STATE_BUSY, e, r⟩ out =
          some (HAL_ERROR, ⟨d, false, HAL_RNG_STATE_BUSY, e, r⟩, out) := rfl
      rw [heq] at hrun
      simp only [Option.some.injEq, Prod.mk.injEq] at hrun
      rw [← hrun.2.1]

/-- Witness for C4 at a concrete unlocked RESET handle. -/
theorem hal_rng_generate_not_ready_frame_witness :
    HAL_RNG_GenerateRandomNumber 1 hwDataReady rngHandleReset0 0 =
      some (HAL_ERROR, rngHandleReset0, 0) ∧
    ∀ st h' out',
      HAL_RNG_GenerateRandomNumber 1 hwDataReady rngHandleReset0 0 =
        some (st, h', out') →
      h'.RandomNumber = rngHandleReset0.RandomNumber :=
  hal_rng_generate_not_ready_frame 1 hwDataReady rngHandleReset0 0 rfl
    (Or.inl rfl)

/-- Counterexample to C4 as stated: on a RESET handle whose lock is already
held, the generate call returns the busy status, not the error status
(`RandomNumber` is still unchanged). -/
theorem hal_rng_generate_not_ready_frame_counterexample :
    (rngHandleResetLocked.State = HAL_RNG_STATE_RESET ∨
       rngHandleResetLocked.State = HAL_RNG_STATE_BUSY) ∧
    HAL_RNG_GenerateRandomNumber 1 hwDataReady rngHandleResetLocked 0 =
      some (HAL_BUSY, rngHandleResetLocked, 0) ∧
    HAL_BUSY ≠ HAL_ERROR := by
  decide

/-- Claim C9: a generate call on a handle whose state is not READY returns a
non-Ok status and leaves the error code unchanged — `GetError` reads the same
value before and after, so this failure records no error bit. -/
theorem hal_rng_generate_not_ready_no_error_bit (fuel : Nat) (hw : RNG_HW)
    (h : RNG_HandleTypeDef) (out : Nat)
    (hs : h.State ≠ HAL_RNG_STATE_READY) :
    (∃ st, HAL_RNG_GenerateRandomNumber fuel hw h out = some (st, h, out) ∧
       st ≠ HAL_OK) ∧
    (∀ st h' out',
       HAL_RNG_GenerateRandomNumber fuel hw h out = some (st, h', out') →
       HAL_RNG_GetError h' = HAL_RNG_GetError h) := by
  obtain ⟨d, l, s, e, r⟩ := h
  cases l with
  | true =>
    refine ⟨⟨HAL_BUSY, rfl, by simp⟩, fun st h' out' hrun => ?_⟩
    have heq : HAL_RNG_GenerateRandomNumber fuel hw ⟨d, true, s, e, r⟩ out =
        some (HAL_BUSY, ⟨d, true, s, e, r⟩, out) := rfl
    rw [heq] at hrun
    simp only [Option.some.injEq, Prod.mk.injEq] at hrun
    rw [← hrun.2.1]
  | false =>
    cases s with
    | HAL_RNG_STATE_READY => exact absurd rfl hs
    | HAL_RNG_STATE_RESET =>
      refine ⟨⟨HAL_ERROR, rfl, by simp⟩, fun st h' out' hrun => ?_⟩
      have heq : HAL_RNG_GenerateRandomNumber fuel hw
          ⟨d, false, HAL_RNG_STATE_RESET, e, r⟩ out =
          some (HAL_ERROR, ⟨d, false, HAL_RNG_STATE_RESET, e, r⟩, out) := rfl
      rw [heq] at hrun
      simp only [Option.some.injEq, Prod.mk.injEq] at hrun
      rw [← hrun.2.1]
    | HAL_RNG_STATE_BUSY =>
      refine ⟨⟨HAL_ERROR, rfl, by simp⟩, fun st h' out' hrun => ?_⟩
      have heq : HAL_RNG_GenerateRandomNumber fuel hw
          ⟨d, false, HAL_RNG_STATE_BUSY, e, r⟩ out =
          some (HAL_ERROR, ⟨d, false, HAL_RNG_STATE_BUSY, e, r⟩, out) := rfl
      rw [heq] at hrun
      simp only [Option.some.injEq, Prod.mk.injEq] at hrun
      rw [← hrun.2.1]

/-- Witness for C9 at a concrete unlocked RESET handle. -/
theorem hal_rng_generate_not_ready_no_error_bit_witness :
    (∃ st, HAL_RNG_GenerateRandomNumber 1 hwDataReady rngHandleReset0 0 =
       some (st, rngHandleReset0, 0) ∧ st ≠ HAL_OK) ∧
    (∀ st h' out',
       HAL_RNG_GenerateRandomNumber 1 hwDataReady rngHandleReset0 0 =
         some (st, h', out') →
       HAL_RNG_GetError h' = HAL_RNG_GetError rngHandleReset0) :=
  hal_rng_generate_not_ready_no_error_bit 1 hwDataReady rngHandleReset0 0
    (by decide)

/-- Claim C10: a returning generate call writes the caller's output variable
only on the success path — any non-Ok return leaves it unchanged, and an Ok
return fills it with the value stored in the handle. -/
theorem hal_rng_generate_output_only_on_success (fuel : Nat) (hw : RNG_HW)
    (h : RNG_HandleTypeDef) (out : Nat) (st : HAL_StatusTypeDef)
    (h' : RNG_HandleTypeDef) (out' : Nat)
    (hrun : HAL_RNG_GenerateRandomNumber fuel hw h out = some (st, h', out')) :
    (st ≠ HAL_OK → out' = out) ∧ (st = HAL_OK → out' = h'.RandomNumber) := by
  rcases generate_cases fuel hw h out st h' out' hrun with
    ⟨_, hst, _, hout⟩ | ⟨_, _, hst, _, hout⟩ |
    ⟨_, _, hst, hout, _⟩ | ⟨_, _, hst, hout, hh, _⟩
  · exact ⟨fun _ => hout, fun hOK => by rw [hst] at hOK; simp at hOK⟩
  · exact ⟨fun _ => hout, fun hOK => by rw [hst] at hOK; simp at hOK⟩
  · exact ⟨fun _ => hout, fun hOK => by rw [hst] at hOK; simp at hOK⟩
  · exact ⟨fun hne => absurd hst hne, fun _ => by rw [hout, hh]⟩

/-- Witness for C10 at a concrete successful generate of 42. -/
theorem hal_rng_generate_output_only_on_success_witness :
    (HAL_OK ≠ HAL_OK → (42 : Nat) = 0) ∧
    (HAL_OK = HAL_OK → (42 : Nat) = rngHandleReadyAfter.RandomNumber) :=
  hal_rng_generate_output_only_on_success 1 hwDataReady rngHandleReady0 0
    HAL_OK rngHandleReadyAfter 42 (by decide)

/-- Claim C7: after a successful generate, `ReadLastRandomNumber` returns
exactly the value that call produced (the value stored in the handle and
written to the caller's output); it is a pure field read, and its value is
preserved by any subsequent non-Ok generate call. -/
theorem hal_rng_read_last_random_number_spec (fuel : Nat) (hw : RNG_HW)
    (h : RNG_HandleTypeDef) (out : Nat) (h' : RNG_HandleTypeDef) (out' : Nat)
    (hrun : HAL_RNG_GenerateRandomNumber fuel hw h out =
      some (HAL_OK, h', out')) :
    HAL_RNG_ReadLastRandomNumber h' = out' ∧
    h'.RandomNumber = out' ∧
    (∀ fuel2 hw2 out2 st2 h2 out2',
       HAL_RNG_GenerateRandomNumber fuel2 hw2 h' out2 = some (st2, h2, out2') →
       st2 ≠ HAL_OK →
       HAL_RNG_ReadLastRandomNumber h2 = HAL_RNG_ReadLastRandomNumber h') := by
  rcases generate_cases fuel hw h out HAL_OK h' out' hrun with
    ⟨_, hst, _⟩ | ⟨_, _, hst, _⟩ | ⟨_, _, hst, _⟩ | ⟨_, _, _, hout, hh, _⟩
  · simp at hst
  · simp at hst
  · simp at hst
  · refine ⟨by simp [HAL_RNG_ReadLastRandomNumber, hh, hout],
            by simp [hh, hout], ?_⟩
    intro fuel2 hw2 out2 st2 h2 out2' hrun2 hne
    rcases generate_cases fuel2 hw2 h' out2 st2 h2 out2' hrun2 with
      ⟨_, _, hh2, _⟩ | ⟨_, _, _, hh2, _⟩ | ⟨_, _, _, _, hh2, _⟩ | ⟨_, _, hst2, _⟩
    · rw [hh2]
    · rw [hh2]
    · simp [HAL_RNG_ReadLastRandomNumber, hh2]
    · exact absurd hst2 hne

/-- Witness for C7 at a concrete successful generate of 42. -/
theorem hal_rng_read_last_random_number_spec_witness :
    HAL_RNG_ReadLastRandomNumber rngHandleReadyAfter = 42 ∧
    rngHandleReadyAfter.RandomNumber = 42 :=
  ⟨(hal_rng_read_last_random_number_spec 1 hwDataReady rngHandleReady0 0
      rngHandleReadyAfter 42 (by decide)).1,
   (hal_rng_read_last_random_number_spec 1 hwDataReady rngHandleReady0 0
      rngHandleReadyAfter 42 (by decide)).2.1⟩
